import Mathlib

/-!
Verification of the `LanguageTranslatorV2` service class of the node SDK
(src/language-translator/v2.ts).

Each endpoint method of the class is embedded as a Lean function from the
service options (`this._options`), a typed params record, and an optional
callback, to the JavaScript value the method returns.  JS absence of a field
is modelled by `Option`; JS objects used as string maps (headers, query
strings, JSON bodies, path parameters, multipart forms) are modelled as
association lists in insertion order.  The npm `extend(true, {}, a, b)` deep
merge, applied in the source only to the options/headers objects, is
modelled by `mergeHeaders`.  User callbacks are modelled symbolically so
that "the callback was invoked with the missing-parameters error" and "a
request was built" are distinguishable outcomes.
-/

namespace WatsonSDK

/-- A headers object: association list of header name/value pairs in
insertion order, modelling a plain JS object used as a string map. -/
abbrev Headers := List (String × String)

/-- A JS field value as it occurs in the bodies, query strings and path
objects built by the service methods: `undef` models a present key whose
value is `undefined` (an absent optional params field copied into a body or
query object), `file` models an opaque file/stream/buffer value. -/
inductive JVal where
  | undefV
  | str (s : String)
  | strs (l : List String)
  | boolV (b : Bool)
  | file (f : String)
  deriving DecidableEq, Repr

/-- Lift an optional string params field into the value placed in a
body/query object (absent fields appear as `undefined`). -/
def optStr : Option String → JVal
  | some s => .str s
  | none => .undefV

/-- Lift an optional string-array params field (translate's `text`). -/
def optStrs : Option (List String) → JVal
  | some l => .strs l
  | none => .undefV

/-- Lift an optional boolean params field (listModels' `default_models`). -/
def optBool : Option Bool → JVal
  | some b => .boolV b
  | none => .undefV

/-- Lift an optional file params field (createModel's form parts). -/
def optFile : Option String → JVal
  | some f => .file f
  | none => .undefV

/-- The body of a request: either a JSON object (translate) or a plain
string (identify / identifyPlain). -/
inductive Body where
  | jsonObj (fields : List (String × JVal))
  | text (s : String)
  deriving DecidableEq, Repr

/-- One part of a multipart form body, `{ data, contentType }` as built by
`createModel`. -/
structure FormPart where
  data : JVal
  contentType : String
  deriving DecidableEq, Repr

/-- The `options` object of the `parameters` record each method passes to
`createRequest`: url, HTTP method, and the optional json/body/qs/path/formData
fields (a field the source does not set is `none`). -/
structure RequestOptions where
  url : String
  method : String
  json : Option Bool := none
  body : Option Body := none
  qs : Option (List (String × JVal)) := none
  path : Option (List (String × JVal)) := none
  formData : Option (List (String × FormPart)) := none
  deriving DecidableEq, Repr

/-- The service instance options `this._options` (and likewise the
`defaultOptions` object each method derives from them): the constructor
options of `LanguageTranslatorV2.Options` plus the default headers object. -/
structure ServiceOptions where
  url : Option String := none
  username : Option String := none
  password : Option String := none
  use_unauthenticated : Option Bool := none
  headers : Headers := []
  deriving DecidableEq, Repr

/-- The `parameters` record passed to `createRequest`. -/
structure RequestParams where
  options : RequestOptions
  defaultOptions : ServiceOptions
  deriving DecidableEq, Repr

/-- The missing-parameters error produced by `getMissingParams`: carries the
names of the required parameters that are absent. -/
structure MissingError where
  missing : List String
  deriving DecidableEq, Repr

/-- The JS value returned by an endpoint method: `undefined` (the result of
the substituted no-op callback), the readable stream of an issued request,
or the value returned by invoking the caller's callback with a
missing-parameters error. -/
inductive JSValue where
  | undefined
  | stream (p : RequestParams)
  | cbErr (id : Nat) (e : MissingError)
  deriving DecidableEq, Repr

/-- A callback value: the substituted no-op `() => \x7b\x7d`, or an opaque
user-supplied callback identified symbolically. -/
inductive CallbackV where
  | noopCb
  | user (id : Nat)
  deriving DecidableEq, Repr

/-- Invoking a callback with a missing-parameters error: the no-op returns
`undefined`; a user callback's return value is opaque. -/
def invokeCb : CallbackV → MissingError → JSValue
  | .noopCb, _ => .undefined
  | .user i, e => .cbErr i e

/-- The source line `const _callback = (callback) ? callback : () => \x7b\x7d`:
an omitted callback is replaced by the no-op. -/
def effCallback (cb : Option CallbackV) : CallbackV :=
  cb.getD .noopCb

/-- Lookup in a headers object: value of the first entry with the given
name. -/
def hLookup (k : String) : Headers → Option String
  | [] => none
  | (k', v) :: rest => if k' = k then some v else hLookup k rest

/-- The npm `extend(true, target, base, override)` merge restricted to the
headers objects, the only place the source applies it beyond plain copying:
keys of `base` keep their position and take `override`'s value when
`override` has the key; keys only in `override` are appended in order. -/
def mergeHeaders (base override : Headers) : Headers :=
  base.map (fun kv =>
    match hLookup kv.1 override with
    | some v => (kv.1, v)
    | none => kv)
  ++ override.filter (fun kv => (hLookup kv.1 base).isNone)

/-- The `defaultOptions` object built by every endpoint method from
`extend(true, \x7b\x7d, this._options, \x7b headers: methodHeaders \x7d)`: a deep copy of
the instance options with the per-method default headers merged into a copy
of the instance headers object. -/
def buildDefaultOptions (opts : ServiceOptions) (methodHeaders : Headers) : ServiceOptions :=
  { opts with headers := mergeHeaders opts.headers methodHeaders }

/-- Modelled from the spec: `getMissingParams` from `lib/helper` is not under
src/ (only its import and call sites are).  The spec describes the SDK's
validation as "parameter validation limited to presence checks", so the
model returns the declared required parameter names that are absent from
the params object, wrapped in a missing-parameters error, and `none` when
all are present. -/
def getMissingParams (present : String → Bool) (required : List String) : Option MissingError :=
  let missing := required.filter (fun r => !present r)
  if missing.isEmpty then none else some ⟨missing⟩

/-- Modelled from the spec: `createRequest` from `lib/requestwrapper` is not
under src/ (only its import and call sites are).  The spec describes it as
the generic helper that "builds and issues a request and normalizes the
response into a callback-style result"; the model returns the readable
stream for the assembled request parameters (the response side lives on the
remote service, outside this repository). -/
def createRequest (p : RequestParams) (_cb : CallbackV) : JSValue :=
  .stream p

/-! ### Params records (the request interfaces of the source)

Every field is `Option`al: a JS caller may omit any field, and the methods
validate presence at runtime. -/

/-- Parameters for the `translate` operation. -/
structure TranslateParams where
  text : Option (List String) := none
  model_id : Option String := none
  source : Option String := none
  target : Option String := none
  deriving DecidableEq, Repr

/-- JS presence check `!params[name]` for a `TranslateParams` object. -/
def TranslateParams.present (p : TranslateParams) : String → Bool
  | "text" => p.text.isSome
  | "model_id" => p.model_id.isSome
  | "source" => p.source.isSome
  | "target" => p.target.isSome
  | _ => false

/-- Parameters for the `identify` operation. -/
structure IdentifyParams where
  text : Option String := none
  deriving DecidableEq, Repr

/-- JS presence check for an `IdentifyParams` object. -/
def IdentifyParams.present (p : IdentifyParams) : String → Bool
  | "text" => p.text.isSome
  | _ => false

/-- Parameters for the `identifyPlain` operation. -/
structure IdentifyPlainParams where
  text : Option String := none
  deriving DecidableEq, Repr

/-- JS presence check for an `IdentifyPlainParams` object. -/
def IdentifyPlainParams.present (p : IdentifyPlainParams) : String → Bool
  | "text" => p.text.isSome
  | _ => false

/-- Parameters for the `listIdentifiableLanguages` operation (none). -/
structure ListIdentifiableLanguagesParams where
  deriving DecidableEq, Repr

/-- Parameters for the `createModel` operation.  File-typed fields
(ReadableStream/FileObject/Buffer) are modelled as opaque strings. -/
structure CreateModelParams where
  base_model_id : Option String := none
  name : Option String := none
  forced_glossary : Option String := none
  parallel_corpus : Option String := none
  monolingual_corpus : Option String := none
  deriving DecidableEq, Repr

/-- JS presence check for a `CreateModelParams` object. -/
def CreateModelParams.present (p : CreateModelParams) : String → Bool
  | "base_model_id" => p.base_model_id.isSome
  | "name" => p.name.isSome
  | "forced_glossary" => p.forced_glossary.isSome
  | "parallel_corpus" => p.parallel_corpus.isSome
  | "monolingual_corpus" => p.monolingual_corpus.isSome
  | _ => false

/-- Parameters for the `deleteModel` operation. -/
structure DeleteModelParams where
  model_id : Option String := none
  deriving DecidableEq, Repr

/-- JS presence check for a `DeleteModelParams` object. -/
def DeleteModelParams.present (p : DeleteModelParams) : String → Bool
  | "model_id" => p.model_id.isSome
  | _ => false

/-- Parameters for the `getModel` operation. -/
structure GetModelParams where
  model_id : Option String := none
  deriving DecidableEq, Repr

/-- JS presence check for a `GetModelParams` object. -/
def GetModelParams.present (p : GetModelParams) : String → Bool
  | "model_id" => p.model_id.isSome
  | _ => false

/-- Parameters for the `listModels` operation. -/
structure ListModelsParams where
  source : Option String := none
  target : Option String := none
  default_models : Option Bool := none
  deriving DecidableEq, Repr

/-- The first argument of `listIdentifiableLanguages` / `listModels`, whose
signature is `(params?, callback?)` and which accepts a callback function in
the params position. -/
inductive ParamsOrCallback (π : Type) where
  | params (p : π)
  | cb (c : CallbackV)
  | absent
  deriving DecidableEq

/-! ### The endpoint methods -/

/-- Embeds `LanguageTranslatorV2.translate` (v2.ts lines 69–98). -/
def translate (opts : ServiceOptions) (params : TranslateParams)
    (callback : Option CallbackV) : JSValue :=
  let q := params
  let c := effCallback callback
  let requiredParams := ["text"]
  match getMissingParams q.present requiredParams with
  | some e => invokeCb c e
  | none =>
    let body : List (String × JVal) :=
      [("text", optStrs q.text),
       ("model_id", optStr q.model_id),
       ("source", optStr q.source),
       ("target", optStr q.target)]
    let parameters : RequestParams :=
      { options :=
          { url := "/v2/translate"
            method := "POST"
            json := some true
            body := some (.jsonObj body) }
        defaultOptions := buildDefaultOptions opts
          [("Accept", "application/json"), ("Content-Type", "application/json")] }
    createRequest parameters c

/-- Embeds `LanguageTranslatorV2.identify` (v2.ts lines 114–138). -/
def identify (opts : ServiceOptions) (params : IdentifyParams)
    (callback : Option CallbackV) : JSValue :=
  let q := params
  let c := effCallback callback
  let requiredParams := ["text"]
  match getMissingParams q.present requiredParams with
  | some e => invokeCb c e
  | none =>
    let body := (q.text).getD ""
    let parameters : RequestParams :=
      { options :=
          { url := "/v2/identify"
            method := "POST"
            json := some false
            body := some (.text body) }
        defaultOptions := buildDefaultOptions opts
          [("Accept", "application/json"), ("Content-Type", "text/plain")] }
    createRequest parameters c

/-- Embeds `LanguageTranslatorV2.identifyPlain` (v2.ts lines 150–174). -/
def identifyPlain (opts : ServiceOptions) (params : IdentifyPlainParams)
    (callback : Option CallbackV) : JSValue :=
  let q := params
  let c := effCallback callback
  let requiredParams := ["text"]
  match getMissingParams q.present requiredParams with
  | some e => invokeCb c e
  | none =>
    let body := (q.text).getD ""
    let parameters : RequestParams :=
      { options :=
          { url := "/v2/identify"
            method := "POST"
            json := some false
            body := some (.text body) }
        defaultOptions := buildDefaultOptions opts
          [("Accept", "text/plain"), ("Content-Type", "text/plain")] }
    createRequest parameters c

/-- The `_params` resolution shared by the two optional-params methods:
`(typeof params === 'function' && !callback) ? \x7b\x7d : extend(\x7b\x7d, params)`
(`extend(\x7b\x7d, undefined)` and `extend(\x7b\x7d, aFunction)` both yield an empty
object). -/
def resolveOptionalParams {π : Type} (dflt : π)
    (params : ParamsOrCallback π) (callback : Option CallbackV) : π :=
  match params, callback with
  | .params p, _ => p
  | _, _ => dflt

/-- The `_callback` resolution shared by the two optional-params methods:
`(typeof params === 'function' && !callback) ? params : (callback) ? callback : () => \x7b\x7d`. -/
def resolveOptionalCallback {π : Type}
    (params : ParamsOrCallback π) (callback : Option CallbackV) : CallbackV :=
  match params, callback with
  | .cb f, none => f
  | _, some f => f
  | _, none => .noopCb

/-- Embeds `LanguageTranslatorV2.listIdentifiableLanguages` (v2.ts lines
185–200). -/
def listIdentifiableLanguages (opts : ServiceOptions)
    (params : ParamsOrCallback ListIdentifiableLanguagesParams)
    (callback : Option CallbackV) : JSValue :=
  let _q := resolveOptionalParams {} params callback
  let c := resolveOptionalCallback params callback
  let parameters : RequestParams :=
    { options :=
        { url := "/v2/identifiable_languages"
          method := "GET" }
      defaultOptions := buildDefaultOptions opts
        [("Accept", "application/json")] }
  createRequest parameters c

/-- Embeds `LanguageTranslatorV2.createModel` (v2.ts lines 220–261). -/
def createModel (opts : ServiceOptions) (params : CreateModelParams)
    (callback : Option CallbackV) : JSValue :=
  let q := params
  let c := effCallback callback
  let requiredParams := ["base_model_id"]
  match getMissingParams q.present requiredParams with
  | some e => invokeCb c e
  | none =>
    let formData : List (String × FormPart) :=
      [("forced_glossary",
        { data := optFile q.forced_glossary
          contentType := "application/octet-stream" }),
       ("parallel_corpus",
        { data := optFile q.parallel_corpus
          contentType := "application/octet-stream" }),
       ("monolingual_corpus",
        { data := optFile q.monolingual_corpus
          contentType := "text/plain" })]
    let query : List (String × JVal) :=
      [("base_model_id", optStr q.base_model_id),
       ("name", optStr q.name)]
    let parameters : RequestParams :=
      { options :=
          { url := "/v2/models"
            method := "POST"
            qs := some query
            formData := some formData }
        defaultOptions := buildDefaultOptions opts
          [("Accept", "application/json"), ("Content-Type", "multipart/form-data")] }
    createRequest parameters c

/-- Embeds `LanguageTranslatorV2.deleteModel` (v2.ts lines 273–297). -/
def deleteModel (opts : ServiceOptions) (params : DeleteModelParams)
    (callback : Option CallbackV) : JSValue :=
  let q := params
  let c := effCallback callback
  let requiredParams := ["model_id"]
  match getMissingParams q.present requiredParams with
  | some e => invokeCb c e
  | none =>
    let path : List (String × JVal) :=
      [("model_id", optStr q.model_id)]
    let parameters : RequestParams :=
      { options :=
          { url := "/v2/models/{model_id}"
            method := "DELETE"
            path := some path }
        defaultOptions := buildDefaultOptions opts
          [("Accept", "application/json")] }
    createRequest parameters c

/-- Embeds `LanguageTranslatorV2.getModel` (v2.ts lines 309–333). -/
def getModel (opts : ServiceOptions) (params : GetModelParams)
    (callback : Option CallbackV) : JSValue :=
  let q := params
  let c := effCallback callback
  let requiredParams := ["model_id"]
  match getMissingParams q.present requiredParams with
  | some e => invokeCb c e
  | none =>
    let path : List (String × JVal) :=
      [("model_id", optStr q.model_id)]
    let parameters : RequestParams :=
      { options :=
          { url := "/v2/models/{model_id}"
            method := "GET"
            path := some path }
        defaultOptions := buildDefaultOptions opts
          [("Accept", "application/json")] }
    createRequest parameters c

/-- Embeds `LanguageTranslatorV2.listModels` (v2.ts lines 347–368). -/
def listModels (opts : ServiceOptions)
    (params : ParamsOrCallback ListModelsParams)
    (callback : Option CallbackV) : JSValue :=
  let q := resolveOptionalParams {} params callback
  let c := resolveOptionalCallback params callback
  let query : List (String × JVal) :=
    [("source", optStr q.source),
     ("target", optStr q.target),
     ("default", optBool q.default_models)]
  let parameters : RequestParams :=
    { options :=
        { url := "/v2/models"
          method := "GET"
          qs := some query }
      defaultOptions := buildDefaultOptions opts
        [("Accept", "application/json")] }
  createRequest parameters c

/-! ### Enumeration of the endpoint methods -/

/-- The eight public endpoint methods of `LanguageTranslatorV2`. -/
inductive EndpointMethod where
  | translateE
  | identifyE
  | identifyPlainE
  | listIdentifiableLanguagesE
  | createModelE
  | deleteModelE
  | getModelE
  | listModelsE
  deriving DecidableEq, Repr, Fintype

/-- All eight endpoint methods. -/
def allEndpointMethods : List EndpointMethod :=
  [.translateE, .identifyE, .identifyPlainE, .listIdentifiableLanguagesE,
   .createModelE, .deleteModelE, .getModelE, .listModelsE]

/-- A bundle of parameter objects, one per endpoint method, so that
statements can quantify over a single endpoint method together with its
arguments. -/
structure AllParams where
  translateP : TranslateParams := {}
  identifyP : IdentifyParams := {}
  identifyPlainP : IdentifyPlainParams := {}
  listLangsP : ParamsOrCallback ListIdentifiableLanguagesParams := .absent
  createModelP : CreateModelParams := {}
  deleteModelP : DeleteModelParams := {}
  getModelP : GetModelParams := {}
  listModelsP : ParamsOrCallback ListModelsParams := .absent

/-- Run one endpoint method on its parameters from the bundle. -/
def runEndpoint (m : EndpointMethod) (opts : ServiceOptions) (a : AllParams)
    (cb : Option CallbackV) : JSValue :=
  match m with
  | .translateE => translate opts a.translateP cb
  | .identifyE => identify opts a.identifyP cb
  | .identifyPlainE => identifyPlain opts a.identifyPlainP cb
  | .listIdentifiableLanguagesE => listIdentifiableLanguages opts a.listLangsP cb
  | .createModelE => createModel opts a.createModelP cb
  | .deleteModelE => deleteModel opts a.deleteModelP cb
  | .getModelE => getModel opts a.getModelP cb
  | .listModelsE => listModels opts a.listModelsP cb

/-- A parameter bundle in which every required parameter is present, used to
read off the endpoint each method targets. -/
def fullParams : AllParams :=
  { translateP := { text := some ["t"] }
    identifyP := { text := some "t" }
    identifyPlainP := { text := some "t" }
    listLangsP := .params {}
    createModelP := { base_model_id := some "b" }
    deleteModelP := { model_id := some "m" }
    getModelP := { model_id := some "m" }
    listModelsP := .params {} }

/-- The remote endpoint a method targets: the (HTTP method, URL) pair of the
request it builds once validation passes. -/
def endpointOf (m : EndpointMethod) : Option (String × String) :=
  match runEndpoint m {} fullParams none with
  | .stream r => some (r.options.method, r.options.url)
  | _ => none

/-! ### Header lookup lemmas for the merged default headers -/

theorem hLookup_append (k : String) (xs ys : Headers) :
    hLookup k (xs ++ ys) =
      match hLookup k xs with
      | some v => some v
      | none => hLookup k ys := by
  induction xs with
  | nil => simp [hLookup]
  | cons kv rest ih =>
    obtain ⟨a, v⟩ := kv
    by_cases hk : a = k
    · simp [hLookup, hk]
    · simp [hLookup, hk, ih]

theorem hLookup_mapOverride (k : String) (base b : Headers) :
    hLookup k (base.map (fun kv =>
      match hLookup kv.1 b with
      | some v => (kv.1, v)
      | none => kv)) =
      match hLookup k base with
      | some v => some ((hLookup k b).getD v)
      | none => none := by
  induction base with
  | nil => simp [hLookup]
  | cons kv rest ih =>
    obtain ⟨a, v⟩ := kv
    by_cases hk : a = k
    · subst hk
      cases hb : hLookup a b <;> simp [hLookup, hb]
    · cases hb : hLookup a b <;> simp [hLookup, hb, hk, ih]

theorem hLookup_filterNotIn (k : String) (base b : Headers) :
    hLookup k (b.filter (fun kv => (hLookup kv.1 base).isNone)) =
      match hLookup k base with
      | some _ => none
      | none => hLookup k b := by
  induction b with
  | nil => cases hLookup k base <;> simp [hLookup]
  | cons kv rest ih =>
    obtain ⟨a, v⟩ := kv
    by_cases hk : a = k
    · subst hk
      cases hb : hLookup a base <;>
        simp [hLookup, hb, List.filter_cons, ih]
    · cases hb : hLookup a base <;>
        simp [hLookup, hb, hk, List.filter_cons, ih]

theorem hLookup_mergeHeaders (k : String) (a b : Headers) :
    hLookup k (mergeHeaders a b) =
      match hLookup k b with
      | some v => some v
      | none => hLookup k a := by
  unfold mergeHeaders
  rw [hLookup_append, hLookup_mapOverride, hLookup_filterNotIn]
  cases ha : hLookup k a <;> cases hb : hLookup k b <;> simp

/-! ### Heap model for the headers objects

The only mutation-capable operation an endpoint method performs on the
objects reachable from the caller is the construction of `defaultOptions`:
`extend(true, target, this._options, overrides)` with a fresh empty target,
which deep-copies the instance's headers object and merges the per-method
default headers into the copy.  We make the store of headers objects
explicit: the instance's headers object lives at an index of the heap, and
building a request allocates the merged headers object at a fresh index. -/

/-- A store of headers objects; the instance's `this._options.headers`
object is one entry, referenced by its index. -/
abbrev HeaderHeap := List Headers

/-- Run an endpoint method whose instance headers object lives at heap index
`hr`: the method reads the instance headers through the reference, and if it
builds a request, its merged default headers object is a fresh allocation at
the end of the heap. -/
def heapCall (h : HeaderHeap) (hr : Nat) (opts : ServiceOptions)
    (run : ServiceOptions → JSValue) : HeaderHeap × JSValue :=
  match run { opts with headers := h.getD hr [] } with
  | .stream r => (h ++ [r.defaultOptions.headers], .stream r)
  | v => (h, v)

/-- Heap-level run of one endpoint method. -/
def runEndpointOnHeap (m : EndpointMethod) (h : HeaderHeap) (hr : Nat)
    (opts : ServiceOptions) (a : AllParams) (cb : Option CallbackV) :
    HeaderHeap × JSValue :=
  heapCall h hr opts (fun o => runEndpoint m o a cb)

/-- Invoking a callback never yields the readable stream of a built request:
the no-op returns `undefined` and a user callback's value is an opaque
callback result. -/
theorem invokeCb_ne_stream (c : CallbackV) (e : MissingError) (r : RequestParams) :
    invokeCb c e ≠ JSValue.stream r := by
  cases c <;> simp [invokeCb]

/-- C1: in every endpoint method of `LanguageTranslatorV2` that declares
required parameters (translate, identify, identifyPlain, createModel,
deleteModel, getModel), validation is a pure presence check: with every
declared required field present the method builds a request, whatever the
values of the remaining fields, and with a required field absent the
callback is invoked with the missing-parameters error and no request is
built.  In particular translate requires only `text`, so a call with `text`
present and neither `model_id` nor `source`/`target` passes validation. -/
theorem C1_validation_is_presence_only (opts : ServiceOptions) (cb : Option CallbackV) :
    (∀ p : TranslateParams,
      (p.text.isSome = true →
        ∃ r, translate opts p cb = createRequest r (effCallback cb)) ∧
      (p.text = none →
        translate opts p cb = invokeCb (effCallback cb) ⟨["text"]⟩ ∧
        ∀ r, translate opts p cb ≠ JSValue.stream r)) ∧
    (∀ p : IdentifyParams,
      (p.text.isSome = true →
        ∃ r, identify opts p cb = createRequest r (effCallback cb)) ∧
      (p.text = none →
        identify opts p cb = invokeCb (effCallback cb) ⟨["text"]⟩ ∧
        ∀ r, identify opts p cb ≠ JSValue.stream r)) ∧
    (∀ p : IdentifyPlainParams,
      (p.text.isSome = true →
        ∃ r, identifyPlain opts p cb = createRequest r (effCallback cb)) ∧
      (p.text = none →
        identifyPlain opts p cb = invokeCb (effCallback cb) ⟨["text"]⟩ ∧
        ∀ r, identifyPlain opts p cb ≠ JSValue.stream r)) ∧
    (∀ p : CreateModelParams,
      (p.base_model_id.isSome = true →
        ∃ r, createModel opts p cb = createRequest r (effCallback cb)) ∧
      (p.base_model_id = none →
        createModel opts p cb = invokeCb (effCallback cb) ⟨["base_model_id"]⟩ ∧
        ∀ r, createModel opts p cb ≠ JSValue.stream r)) ∧
    (∀ p : DeleteModelParams,
      (p.model_id.isSome = true →
        ∃ r, deleteModel opts p cb = createRequest r (effCallback cb)) ∧
      (p.model_id = none →
        deleteModel opts p cb = invokeCb (effCallback cb) ⟨["model_id"]⟩ ∧
        ∀ r, deleteModel opts p cb ≠ JSValue.stream r)) ∧
    (∀ p : GetModelParams,
      (p.model_id.isSome = true →
        ∃ r, getModel opts p cb = createRequest r (effCallback cb)) ∧
      (p.model_id = none →
        getModel opts p cb = invokeCb (effCallback cb) ⟨["model_id"]⟩ ∧
        ∀ r, getModel opts p cb ≠ JSValue.stream r)) ∧
    (∀ ts : List String,
      ∃ r, translate opts { text := some ts } cb = createRequest r (effCallback cb)) := by
  refine ⟨?_, ?_, ?_, ?_, ?_, ?_, fun ts => ⟨_, rfl⟩⟩
  · rintro ⟨t, m, s, g⟩
    rcases t with _ | ts
    · exact ⟨fun ht => by simp at ht,
        fun _ => ⟨rfl, fun r h => invokeCb_ne_stream _ _ r h⟩⟩
    · exact ⟨fun _ => ⟨_, rfl⟩, fun ht => by simp at ht⟩
  · rintro ⟨t⟩
    rcases t with _ | ts
    · exact ⟨fun ht => by simp at ht,
        fun _ => ⟨rfl, fun r h => invokeCb_ne_stream _ _ r h⟩⟩
    · exact ⟨fun _ => ⟨_, rfl⟩, fun ht => by simp at ht⟩
  · rintro ⟨t⟩
    rcases t with _ | ts
    · exact ⟨fun ht => by simp at ht,
        fun _ => ⟨rfl, fun r h => invokeCb_ne_stream _ _ r h⟩⟩
    · exact ⟨fun _ => ⟨_, rfl⟩, fun ht => by simp at ht⟩
  · rintro ⟨b, nm, fg, pc, mc⟩
    rcases b with _ | bv
    · exact ⟨fun ht => by simp at ht,
        fun _ => ⟨rfl, fun r h => invokeCb_ne_stream _ _ r h⟩⟩
    · exact ⟨fun _ => ⟨_, rfl⟩, fun ht => by simp at ht⟩
  · rintro ⟨mi⟩
    rcases mi with _ | mv
    · exact ⟨fun ht => by simp at ht,
        fun _ => ⟨rfl, fun r h => invokeCb_ne_stream _ _ r h⟩⟩
    · exact ⟨fun _ => ⟨_, rfl⟩, fun ht => by simp at ht⟩
  · rintro ⟨mi⟩
    rcases mi with _ | mv
    · exact ⟨fun ht => by simp at ht,
        fun _ => ⟨rfl, fun r h => invokeCb_ne_stream _ _ r h⟩⟩
    · exact ⟨fun _ => ⟨_, rfl⟩, fun ht => by simp at ht⟩

/-- Witness for C1 at concrete inputs: translate with only `text` (and a
lone `source`) passes validation, and translate with `text` absent invokes
the callback with the missing-parameters error for `text`. -/
theorem C1_validation_is_presence_only_witness :
    (∃ r, translate {} { text := some ["hello"], source := some "en" } none
        = createRequest r (effCallback none)) ∧
    translate {} {} none = invokeCb (effCallback none) ⟨["text"]⟩ := by
  exact ⟨((C1_validation_is_presence_only {} none).1 _).1 rfl,
         (((C1_validation_is_presence_only {} none).1 _).2 rfl).1⟩

/-- C2: once its presence check passes (or immediately, for the two methods
with no required parameters), every endpoint method delegates to the single
generic helper `createRequest`, passing it the assembled request parameters
and the resolved caller callback, and returns its result; the only other
outcome any method has is invoking the callback with the missing-parameters
error. -/
theorem C2_delegates_to_createRequest (opts : ServiceOptions) :
    (∀ (p : TranslateParams) (cb : Option CallbackV),
      (∃ e, translate opts p cb = invokeCb (effCallback cb) e) ∨
      (∃ r, translate opts p cb = createRequest r (effCallback cb))) ∧
    (∀ (p : IdentifyParams) (cb : Option CallbackV),
      (∃ e, identify opts p cb = invokeCb (effCallback cb) e) ∨
      (∃ r, identify opts p cb = createRequest r (effCallback cb))) ∧
    (∀ (p : IdentifyPlainParams) (cb : Option CallbackV),
      (∃ e, identifyPlain opts p cb = invokeCb (effCallback cb) e) ∨
      (∃ r, identifyPlain opts p cb = createRequest r (effCallback cb))) ∧
    (∀ (ps : ParamsOrCallback ListIdentifiableLanguagesParams) (cb : Option CallbackV),
      ∃ r, listIdentifiableLanguages opts ps cb
        = createRequest r (resolveOptionalCallback ps cb)) ∧
    (∀ (p : CreateModelParams) (cb : Option CallbackV),
      (∃ e, createModel opts p cb = invokeCb (effCallback cb) e) ∨
      (∃ r, createModel opts p cb = createRequest r (effCallback cb))) ∧
    (∀ (p : DeleteModelParams) (cb : Option CallbackV),
      (∃ e, deleteModel opts p cb = invokeCb (effCallback cb) e) ∨
      (∃ r, deleteModel opts p cb = createRequest r (effCallback cb))) ∧
    (∀ (p : GetModelParams) (cb : Option CallbackV),
      (∃ e, getModel opts p cb = invokeCb (effCallback cb) e) ∨
      (∃ r, getModel opts p cb = createRequest r (effCallback cb))) ∧
    (∀ (ps : ParamsOrCallback ListModelsParams) (cb : Option CallbackV),
      ∃ r, listModels opts ps cb = createRequest r (resolveOptionalCallback ps cb)) := by
  refine ⟨?_, ?_, ?_, fun ps cb => ⟨_, rfl⟩, ?_, ?_, ?_, fun ps cb => ⟨_, rfl⟩⟩
  · rintro ⟨t, m, s, g⟩ cb
    rcases t with _ | ts
    · exact Or.inl ⟨⟨["text"]⟩, rfl⟩
    · exact Or.inr ⟨_, rfl⟩
  · rintro ⟨t⟩ cb
    rcases t with _ | ts
    · exact Or.inl ⟨⟨["text"]⟩, rfl⟩
    · exact Or.inr ⟨_, rfl⟩
  · rintro ⟨t⟩ cb
    rcases t with _ | ts
    · exact Or.inl ⟨⟨["text"]⟩, rfl⟩
    · exact Or.inr ⟨_, rfl⟩
  · rintro ⟨b, nm, fg, pc, mc⟩ cb
    rcases b with _ | bv
    · exact Or.inl ⟨⟨["base_model_id"]⟩, rfl⟩
    · exact Or.inr ⟨_, rfl⟩
  · rintro ⟨mi⟩ cb
    rcases mi with _ | mv
    · exact Or.inl ⟨⟨["model_id"]⟩, rfl⟩
    · exact Or.inr ⟨_, rfl⟩
  · rintro ⟨mi⟩ cb
    rcases mi with _ | mv
    · exact Or.inl ⟨⟨["model_id"]⟩, rfl⟩
    · exact Or.inr ⟨_, rfl⟩

/-- C10: an omitted callback is replaced by the substituted no-op, so a call
that fails the required-parameter presence check returns `undefined`: the
missing-parameters error is silently discarded and nothing is signalled. -/
theorem C10_omitted_callback_is_silent (opts : ServiceOptions) :
    effCallback none = CallbackV.noopCb ∧
    (∀ p : TranslateParams, p.text = none →
      translate opts p none = JSValue.undefined) ∧
    (∀ p : IdentifyParams, p.text = none →
      identify opts p none = JSValue.undefined) ∧
    (∀ p : IdentifyPlainParams, p.text = none →
      identifyPlain opts p none = JSValue.undefined) ∧
    (∀ p : CreateModelParams, p.base_model_id = none →
      createModel opts p none = JSValue.undefined) ∧
    (∀ p : DeleteModelParams, p.model_id = none →
      deleteModel opts p none = JSValue.undefined) ∧
    (∀ p : GetModelParams, p.model_id = none →
      getModel opts p none = JSValue.undefined) := by
  refine ⟨rfl, ?_, ?_, ?_, ?_, ?_, ?_⟩
  · rintro ⟨t, m, s, g⟩ ht
    rcases t with _ | ts
    · rfl
    · simp at ht
  · rintro ⟨t⟩ ht
    rcases t with _ | ts
    · rfl
    · simp at ht
  · rintro ⟨t⟩ ht
    rcases t with _ | ts
    · rfl
    · simp at ht
  · rintro ⟨b, nm, fg, pc, mc⟩ hb
    rcases b with _ | bv
    · rfl
    · simp at hb
  · rintro ⟨mi⟩ hm
    rcases mi with _ | mv
    · rfl
    · simp at hm
  · rintro ⟨mi⟩ hm
    rcases mi with _ | mv
    · rfl
    · simp at hm

/-- Witness for C10 at concrete inputs: translate and deleteModel called
with empty params and no callback return `undefined`. -/
theorem C10_omitted_callback_is_silent_witness :
    translate {} {} none = JSValue.undefined ∧
    deleteModel {} {} none = JSValue.undefined := by
  exact ⟨(C10_omitted_callback_is_silent {}).2.1 {} rfl,
         (C10_omitted_callback_is_silent {}).2.2.2.2.2.1 {} rfl⟩

/-- C3: for every TranslateParams object with `text` present, translate
builds a POST request to `/v2/translate` whose JSON body enumerates exactly
the four params fields `text`, `model_id`, `source`, `target` under those
names (absent optional fields appearing as `undefined`), with `json` set to
true and default headers Accept: application/json and Content-Type:
application/json merged over the instance headers. -/
theorem C3_translate_request_shape (opts : ServiceOptions) (p : TranslateParams)
    (cb : Option CallbackV) (ts : List String) (h : p.text = some ts) :
    translate opts p cb = createRequest
      { options :=
          { url := "/v2/translate"
            method := "POST"
            json := some true
            body := some (.jsonObj
              [("text", JVal.strs ts),
               ("model_id", optStr p.model_id),
               ("source", optStr p.source),
               ("target", optStr p.target)]) }
        defaultOptions := buildDefaultOptions opts
          [("Accept", "application/json"), ("Content-Type", "application/json")] }
      (effCallback cb) ∧
    hLookup "Accept" (buildDefaultOptions opts
      [("Accept", "application/json"), ("Content-Type", "application/json")]).headers
      = some "application/json" ∧
    hLookup "Content-Type" (buildDefaultOptions opts
      [("Accept", "application/json"), ("Content-Type", "application/json")]).headers
      = some "application/json" := by
  obtain ⟨t, m, s, g⟩ := p
  obtain rfl : t = some ts := h
  refine ⟨rfl, ?_, ?_⟩ <;>
    simp [buildDefaultOptions, hLookup_mergeHeaders, hLookup]

/-- Witness for C3 at a concrete input: translate with text `["a"]` and all
optional fields absent. -/
theorem C3_translate_request_shape_witness :
    translate {} { text := some ["a"] } none = createRequest
      { options :=
          { url := "/v2/translate"
            method := "POST"
            json := some true
            body := some (.jsonObj
              [("text", JVal.strs ["a"]),
               ("model_id", JVal.undefV),
               ("source", JVal.undefV),
               ("target", JVal.undefV)]) }
        defaultOptions := buildDefaultOptions {}
          [("Accept", "application/json"), ("Content-Type", "application/json")] }
      (effCallback none) := by
  exact (C3_translate_request_shape {} { text := some ["a"] } none ["a"] rfl).1

/-- C4: listModels places exactly `source`, `target` (under their own
names) and `default_models` (under the query key `default`) in the query
string of a GET to `/v2/models`; createModel places exactly `base_model_id`
and `name` in the query string of a POST to `/v2/models`. -/
theorem C4_query_string_mapping (opts : ServiceOptions) (cb : Option CallbackV) :
    (∀ p : ListModelsParams,
      listModels opts (.params p) cb = createRequest
        { options :=
            { url := "/v2/models"
              method := "GET"
              qs := some [("source", optStr p.source), ("target", optStr p.target),
                          ("default", optBool p.default_models)] }
          defaultOptions := buildDefaultOptions opts [("Accept", "application/json")] }
        (resolveOptionalCallback (.params p) cb)) ∧
    (∀ (p : CreateModelParams) (b : String), p.base_model_id = some b →
      ∃ fd, createModel opts p cb = createRequest
        { options :=
            { url := "/v2/models"
              method := "POST"
              qs := some [("base_model_id", optStr p.base_model_id),
                          ("name", optStr p.name)]
              formData := some fd }
          defaultOptions := buildDefaultOptions opts
            [("Accept", "application/json"), ("Content-Type", "multipart/form-data")] }
        (effCallback cb)) := by
  constructor
  · rintro ⟨s, t, d⟩
    rfl
  · rintro ⟨bm, nm, fg, pc, mc⟩ b hb
    obtain rfl : bm = some b := hb
    exact ⟨_, rfl⟩

/-- Witness for C4 at a concrete input: createModel with only
`base_model_id` present. -/
theorem C4_query_string_mapping_witness :
    ∃ fd, createModel {} { base_model_id := some "b" } none = createRequest
      { options :=
          { url := "/v2/models"
            method := "POST"
            qs := some [("base_model_id", optStr (some "b")), ("name", optStr none)]
            formData := some fd }
        defaultOptions := buildDefaultOptions {}
          [("Accept", "application/json"), ("Content-Type", "multipart/form-data")] }
      (effCallback none) := by
  exact (C4_query_string_mapping {} none).2 { base_model_id := some "b" } "b" rfl

/-- C5: with `model_id` present, deleteModel builds a DELETE and getModel a
GET request on the templated URL `/v2/models/{model_id}` with `model_id` as
the sole path parameter; the two requests are otherwise identical (same URL
template, same path object, same merged default options with Accept:
application/json), differing only in the HTTP method. -/
theorem C5_model_path_requests (opts : ServiceOptions) (cb : Option CallbackV) (m : String) :
    ∃ rD rG : RequestParams,
      deleteModel opts { model_id := some m } cb = createRequest rD (effCallback cb) ∧
      getModel opts { model_id := some m } cb = createRequest rG (effCallback cb) ∧
      rD.options.url = "/v2/models/{model_id}" ∧
      rG.options.url = "/v2/models/{model_id}" ∧
      rD.options.path = some [("model_id", JVal.str m)] ∧
      rD.options.method = "DELETE" ∧
      rG.options.method = "GET" ∧
      rG.options = { rD.options with method := "GET" } ∧
      rG.defaultOptions = rD.defaultOptions ∧
      hLookup "Accept" rD.defaultOptions.headers = some "application/json" := by
  refine ⟨_, _, rfl, rfl, rfl, rfl, rfl, rfl, rfl, rfl, rfl, ?_⟩
  simp [buildDefaultOptions, hLookup_mergeHeaders, hLookup]

/-- C6: with `base_model_id` present, createModel assembles a multipart form
body containing exactly the three parts forced_glossary, parallel_corpus
and monolingual_corpus, each wrapping the corresponding params field (even
when absent), with content types application/octet-stream,
application/octet-stream and text/plain, and the default Content-Type
header set to multipart/form-data. -/
theorem C6_multipart_form (opts : ServiceOptions) (p : CreateModelParams)
    (cb : Option CallbackV) (b : String) (h : p.base_model_id = some b) :
    (∃ q, createModel opts p cb = createRequest
      { options :=
          { url := "/v2/models"
            method := "POST"
            qs := some q
            formData := some
              [("forced_glossary",
                { data := optFile p.forced_glossary
                  contentType := "application/octet-stream" }),
               ("parallel_corpus",
                { data := optFile p.parallel_corpus
                  contentType := "application/octet-stream" }),
               ("monolingual_corpus",
                { data := optFile p.monolingual_corpus
                  contentType := "text/plain" })] }
        defaultOptions := buildDefaultOptions opts
          [("Accept", "application/json"), ("Content-Type", "multipart/form-data")] }
      (effCallback cb)) ∧
    hLookup "Content-Type" (buildDefaultOptions opts
      [("Accept", "application/json"), ("Content-Type", "multipart/form-data")]).headers
      = some "multipart/form-data" := by
  obtain ⟨bm, nm, fg, pc, mc⟩ := p
  obtain rfl : bm = some b := h
  exact ⟨⟨_, rfl⟩, by simp [buildDefaultOptions, hLookup_mergeHeaders, hLookup]⟩

/-- Witness for C6 at a concrete input: createModel with only
`base_model_id` present assembles all three (empty) form parts. -/
theorem C6_multipart_form_witness :
    ∃ q, createModel {} { base_model_id := some "b" } none = createRequest
      { options :=
          { url := "/v2/models"
            method := "POST"
            qs := some q
            formData := some
              [("forced_glossary",
                { data := JVal.undefV, contentType := "application/octet-stream" }),
               ("parallel_corpus",
                { data := JVal.undefV, contentType := "application/octet-stream" }),
               ("monolingual_corpus",
                { data := JVal.undefV, contentType := "text/plain" })] }
        defaultOptions := buildDefaultOptions {}
          [("Accept", "application/json"), ("Content-Type", "multipart/form-data")] }
      (effCallback none) := by
  exact (C6_multipart_form {} { base_model_id := some "b" } none "b" rfl).1

/-- C7 fails on the code: identify and identifyPlain are two distinct public
methods that both build a request to the same (HTTP method, URL) pair
(POST, /v2/identify), so the class does not expose exactly one method per
remote endpoint. -/
theorem C7_counterexample :
    endpointOf EndpointMethod.identifyE = endpointOf EndpointMethod.identifyPlainE ∧
    EndpointMethod.identifyE ≠ EndpointMethod.identifyPlainE ∧
    endpointOf EndpointMethod.identifyE = some ("POST", "/v2/identify") := by
  exact ⟨rfl, by decide, rfl⟩

/-- C7 amended: every (HTTP method, URL) pair targeted by the class is
targeted by exactly one public method, except (POST, /v2/identify), which
is targeted by exactly the two methods identify and identifyPlain. -/
theorem C7_one_method_per_endpoint_amended :
    (∀ m1 m2 : EndpointMethod, endpointOf m1 = endpointOf m2 →
      m1 = m2 ∨ endpointOf m1 = some ("POST", "/v2/identify")) ∧
    allEndpointMethods.filter
        (fun m => decide (endpointOf m = some ("POST", "/v2/identify")))
      = [EndpointMethod.identifyE, EndpointMethod.identifyPlainE] := by
  constructor
  · decide
  · rfl

/-- Witness for the amended C7 at a concrete input: the two methods
targeting the same endpoint are identified as the identify pair. -/
theorem C7_one_method_per_endpoint_amended_witness :
    EndpointMethod.identifyE = EndpointMethod.identifyPlainE ∨
    endpointOf EndpointMethod.identifyE = some ("POST", "/v2/identify") := by
  exact C7_one_method_per_endpoint_amended.1 EndpointMethod.identifyE
    EndpointMethod.identifyPlainE rfl

/-- C8: for every identify/identifyPlain params object with `text` present,
the two methods build requests with identical `options` (POST /v2/identify,
body = params.text, json false) and identical default options except for
exactly one difference: identify merges in Accept: application/json while
identifyPlain merges in Accept: text/plain (both set the default
Content-Type to text/plain). -/
theorem C8_identify_vs_identifyPlain (opts : ServiceOptions) (t : String)
    (cb : Option CallbackV) :
    identify opts { text := some t } cb = createRequest
      { options :=
          { url := "/v2/identify", method := "POST", json := some false
            body := some (.text t) }
        defaultOptions := buildDefaultOptions opts
          [("Accept", "application/json"), ("Content-Type", "text/plain")] }
      (effCallback cb) ∧
    identifyPlain opts { text := some t } cb = createRequest
      { options :=
          { url := "/v2/identify", method := "POST", json := some false
            body := some (.text t) }
        defaultOptions := buildDefaultOptions opts
          [("Accept", "text/plain"), ("Content-Type", "text/plain")] }
      (effCallback cb) ∧
    buildDefaultOptions opts [("Accept", "application/json"), ("Content-Type", "text/plain")]
      = { buildDefaultOptions opts [("Accept", "text/plain"), ("Content-Type", "text/plain")]
          with headers := (buildDefaultOptions opts
            [("Accept", "application/json"), ("Content-Type", "text/plain")]).headers } ∧
    (∀ k, k ≠ "Accept" →
      hLookup k (buildDefaultOptions opts
        [("Accept", "application/json"), ("Content-Type", "text/plain")]).headers
      = hLookup k (buildDefaultOptions opts
        [("Accept", "text/plain"), ("Content-Type", "text/plain")]).headers) ∧
    hLookup "Accept" (buildDefaultOptions opts
      [("Accept", "application/json"), ("Content-Type", "text/plain")]).headers
      = some "application/json" ∧
    hLookup "Accept" (buildDefaultOptions opts
      [("Accept", "text/plain"), ("Content-Type", "text/plain")]).headers
      = some "text/plain" ∧
    hLookup "Content-Type" (buildDefaultOptions opts
      [("Accept", "application/json"), ("Content-Type", "text/plain")]).headers
      = some "text/plain" := by
  refine ⟨rfl, rfl, rfl, ?_, ?_, ?_, ?_⟩
  · intro k hk
    simp [buildDefaultOptions, hLookup_mergeHeaders, hLookup, Ne.symm hk]
  all_goals simp [buildDefaultOptions, hLookup_mergeHeaders, hLookup]

/-- Witness for C8 at a concrete input: the two identify requests on text
`"hola"`, and agreement of the merged headers at the key Content-Type. -/
theorem C8_identify_vs_identifyPlain_witness :
    identify {} { text := some "hola" } none = createRequest
      { options :=
          { url := "/v2/identify", method := "POST", json := some false
            body := some (.text "hola") }
        defaultOptions := buildDefaultOptions {}
          [("Accept", "application/json"), ("Content-Type", "text/plain")] }
      (effCallback none) ∧
    identifyPlain {} { text := some "hola" } none = createRequest
      { options :=
          { url := "/v2/identify", method := "POST", json := some false
            body := some (.text "hola") }
        defaultOptions := buildDefaultOptions {}
          [("Accept", "text/plain"), ("Content-Type", "text/plain")] }
      (effCallback none) ∧
    hLookup "Content-Type" (buildDefaultOptions {}
      [("Accept", "application/json"), ("Content-Type", "text/plain")]).headers
      = hLookup "Content-Type" (buildDefaultOptions {}
      [("Accept", "text/plain"), ("Content-Type", "text/plain")]).headers := by
  obtain ⟨h1, h2, -, hk, -⟩ := C8_identify_vs_identifyPlain {} "hola" none
  exact ⟨h1, h2, hk "Content-Type" (by decide)⟩

/-- Heap preservation of a single endpoint call: whatever the method's
outcome, the pre-existing headers objects of the store are untouched (the
merged default headers object is a fresh allocation). -/
theorem heapCall_preserves (h : HeaderHeap) (hr : Nat) (opts : ServiceOptions)
    (run : ServiceOptions → JSValue) (hhr : hr < h.length) :
    (heapCall h hr opts run).1.take h.length = h ∧
    (heapCall h hr opts run).1.getD hr [] = h.getD hr [] := by
  unfold heapCall
  cases run { opts with headers := h.getD hr [] } with
  | stream r =>
    exact ⟨List.take_left h [r.defaultOptions.headers],
           List.getD_append h [r.defaultOptions.headers] [] hr hhr⟩
  | undefined => exact ⟨List.take_length h, rfl⟩
  | cbErr i e => exact ⟨List.take_length h, rfl⟩

/-- C9: no endpoint method mutates its inputs or the service instance: the
caller's params object is shallow-copied and `this._options` deep-copied
into a fresh defaultOptions object before the per-method headers are merged
in, so after any call every pre-existing object of the store — in
particular the instance's headers object — is unchanged. -/
theorem C9_no_instance_mutation (m : EndpointMethod) (h : HeaderHeap) (hr : Nat)
    (opts : ServiceOptions) (a : AllParams) (cb : Option CallbackV)
    (hhr : hr < h.length) :
    (runEndpointOnHeap m h hr opts a cb).1.take h.length = h ∧
    (runEndpointOnHeap m h hr opts a cb).1.getD hr [] = h.getD hr [] := by
  exact heapCall_preserves h hr opts (fun o => runEndpoint m o a cb) hhr

/-- Witness for C9 at concrete inputs: a translate call on a heap with one
instance headers object leaves that object unchanged. -/
theorem C9_no_instance_mutation_witness :
    (runEndpointOnHeap EndpointMethod.translateE [[("X-Test", "1")]] 0 {}
      fullParams none).1.take 1 = [[("X-Test", "1")]] ∧
    (runEndpointOnHeap EndpointMethod.translateE [[("X-Test", "1")]] 0 {}
      fullParams none).1.getD 0 [] = [("X-Test", "1")] := by
  exact C9_no_instance_mutation EndpointMethod.translateE [[("X-Test", "1")]] 0 {}
    fullParams none (by decide)

end WatsonSDK
